import Mathlib

/-
  Verification of the Backpack-Lighter cross-venue arbitrage bot.

  Shallow embedding of the repository's strategy and exchange-adapter code:
    - src/strategy/order_book_manager.py   (OrderBookManager)
    - src/strategy/position_tracker.py     (PositionTracker)
    - src/strategy/backpack_lighter_arb.py (BackpackLighterArb)
    - src/exchanges/base.py                (query_retry, OrderResult)
    - src/exchanges/backpack.py            (BackpackClient, BackpackWebSocketManager)
    - src/exchanges/lighter.py             (LighterClient, LighterWebSocketManager)

  Python `Decimal` values are modelled as ℚ (the code only performs exact
  decimal arithmetic on them), `Optional[Decimal]` as `Option ℚ`, raised
  exceptions as an explicit `Exc` value, and async I/O outcomes as explicit
  parameters of the embedded functions.
-/

namespace Arb

/-- A Python exception, identified by its message. -/
structure Exc where
  msg : String
deriving DecidableEq, Repr

/-- Python truthiness of an `Optional[Decimal]` value: `None` and `Decimal(0)`
are falsy, every other value is truthy.  The source tests optional prices and
spreads with bare `if x` / `if x and y`, which is this predicate. -/
def truthy : Option ℚ → Bool
  | none => false
  | some q => decide (q ≠ 0)

/-- ASCII lower-casing of one character, as Python `str.lower` acts on the
side strings handled by the clients. -/
def lowerChar (c : Char) : Char :=
  if 'A' ≤ c ∧ c ≤ 'Z' then Char.ofNat (c.toNat + 32) else c

/-- ASCII upper-casing of one character, as Python `str.upper` acts on the
status strings handled by the clients. -/
def upperChar (c : Char) : Char :=
  if 'a' ≤ c ∧ c ≤ 'z' then Char.ofNat (c.toNat - 32) else c

/-- Python `side.lower()` restricted to ASCII. -/
def pyLower (s : String) : String := ⟨s.data.map lowerChar⟩

/-- Python `status.upper()` restricted to ASCII. -/
def pyUpper (s : String) : String := ⟨s.data.map upperChar⟩

/-- OrderResult dataclass from src/exchanges/base.py lines 36-47. -/
structure OrderResult where
  success : Bool
  order_id : Option String := none
  side : Option String := none
  size : Option ℚ := none
  price : Option ℚ := none
  status : Option String := none
  error_message : Option String := none
  filled_size : Option ℚ := none
  avg_price : Option ℚ := none
deriving DecidableEq, Repr

/-! ### OrderBookManager (src/strategy/order_book_manager.py) -/

/-- Mutable state of OrderBookManager (lines 11-23); all fields start as
`None` / `False` in `__init__`. -/
structure OrderBookManager where
  backpack_best_bid : Option ℚ := none
  backpack_best_ask : Option ℚ := none
  backpack_ready : Bool := false
  lighter_best_bid : Option ℚ := none
  lighter_best_ask : Option ℚ := none
  lighter_ready : Bool := false
deriving DecidableEq, Repr

/-- `update_backpack_bbo` (lines 25-32): store both values and flip the ready
flag on. -/
def OrderBookManager.update_backpack_bbo (m : OrderBookManager) (best_bid best_ask : ℚ) :
    OrderBookManager :=
  { m with backpack_best_bid := some best_bid, backpack_best_ask := some best_ask,
           backpack_ready := true }

/-- `update_lighter_bbo` (lines 34-41). -/
def OrderBookManager.update_lighter_bbo (m : OrderBookManager) (best_bid best_ask : ℚ) :
    OrderBookManager :=
  { m with lighter_best_bid := some best_bid, lighter_best_ask := some best_ask,
           lighter_ready := true }

/-- `is_ready` (lines 51-53). -/
def OrderBookManager.is_ready (m : OrderBookManager) : Bool :=
  m.backpack_ready && m.lighter_ready

/-- `get_spread` (lines 55-77): `(None, None)` unless both books are ready and
all four quotes pass Python truthiness; otherwise
`(lighter_bid - backpack_ask, backpack_bid - lighter_ask)`. -/
def OrderBookManager.get_spread (m : OrderBookManager) : Option ℚ × Option ℚ :=
  if !m.is_ready then (none, none)
  else if truthy m.lighter_best_bid && truthy m.backpack_best_ask &&
          truthy m.backpack_best_bid && truthy m.lighter_best_ask then
    (some (m.lighter_best_bid.getD 0 - m.backpack_best_ask.getD 0),
     some (m.backpack_best_bid.getD 0 - m.lighter_best_ask.getD 0))
  else (none, none)

/-- The best bid/ask values currently exposed by the two WebSocket managers,
as read by `BackpackLighterArb._update_order_books`. -/
structure WsView where
  bp_bid : Option ℚ
  bp_ask : Option ℚ
  lt_bid : Option ℚ
  lt_ask : Option ℚ

/-- `BackpackLighterArb._update_order_books` (backpack_lighter_arb.py lines
185-199): push each venue's BBO into the manager only when both sides are
truthy. -/
def update_order_books (m : OrderBookManager) (v : WsView) : OrderBookManager :=
  let m1 := if truthy v.bp_bid && truthy v.bp_ask then
    m.update_backpack_bbo (v.bp_bid.getD 0) (v.bp_ask.getD 0) else m
  if truthy v.lt_bid && truthy v.lt_ask then
    m1.update_lighter_bbo (v.lt_bid.getD 0) (v.lt_ask.getD 0) else m1

/-- Repeated `_update_order_books` ticks applied to a manager state. -/
def apply_updates (m : OrderBookManager) : List WsView → OrderBookManager
  | [] => m
  | v :: vs => apply_updates (update_order_books m v) vs

/-! ### PositionTracker (src/strategy/position_tracker.py) -/

/-- Cached positions (lines 21-23), both `Decimal('0')` initially. -/
structure PositionTracker where
  backpack_position : ℚ := 0
  lighter_position : ℚ := 0
deriving DecidableEq, Repr

/-- `update_backpack_position` (lines 51-54). -/
def PositionTracker.update_backpack_position (t : PositionTracker) (delta : ℚ) :
    PositionTracker :=
  { t with backpack_position := t.backpack_position + delta }

/-- `update_lighter_position` (lines 56-59). -/
def PositionTracker.update_lighter_position (t : PositionTracker) (delta : ℚ) :
    PositionTracker :=
  { t with lighter_position := t.lighter_position + delta }

/-- `get_net_position` (lines 69-71). -/
def PositionTracker.get_net_position (t : PositionTracker) : ℚ :=
  t.backpack_position + t.lighter_position

/-- `refresh_positions` (lines 25-49).  The two `get_position` calls are run
with `asyncio.gather(..., return_exceptions=True)`, so each outcome is either
a value or a captured exception; a captured exception leaves that venue's
cached value untouched, and the function returns `True`. -/
def PositionTracker.refresh_positions (t : PositionTracker)
    (bp_pos lt_pos : Except Exc ℚ) : PositionTracker × Bool :=
  let t1 := match bp_pos with
    | .error _ => t
    | .ok v => { t with backpack_position := v }
  let t2 := match lt_pos with
    | .error _ => t1
    | .ok v => { t1 with lighter_position := v }
  (t2, true)

/-! ### BackpackLighterArb (src/strategy/backpack_lighter_arb.py) -/

/-- Configuration and mutable trading state of `BackpackLighterArb`
(lines 47-70): strategy parameters, the three trade counters and the
position tracker. -/
structure BotState where
  order_quantity : ℚ
  long_threshold : ℚ := 5
  short_threshold : ℚ := 5
  max_position : ℚ := 0
  total_trades : ℕ := 0
  successful_trades : ℕ := 0
  failed_trades : ℕ := 0
  position_tracker : PositionTracker := {}
deriving DecidableEq, Repr

/-- Success test applied to each leg result of `asyncio.gather(...,
return_exceptions=True)` (lines 229-230): not an exception and
`result.success`. -/
def legSuccess : Except Exc OrderResult → Bool
  | .error _ => false
  | .ok r => r.success

/-- `_execute_arbitrage` (lines 201-273), with the two leg outcomes passed in
explicitly.  Increments `total_trades`, then classifies the joint outcome:
on joint success increments `successful_trades` and applies the position
deltas (`buy` side `+quantity`, `sell` side `-quantity`); otherwise
increments `failed_trades`. -/
def execute_arbitrage (s : BotState) (direction : String)
    (bp_result lt_result : Except Exc OrderResult) : BotState :=
  let s0 := { s with total_trades := s.total_trades + 1 }
  let bp_side : String := if direction = "LONG_BACKPACK" then "buy" else "sell"
  if legSuccess bp_result && legSuccess lt_result then
    let s1 := { s0 with successful_trades := s0.successful_trades + 1 }
    if bp_side = "buy" then
      let tr := (s1.position_tracker.update_backpack_position
        s1.order_quantity).update_lighter_position (-s1.order_quantity)
      { s1 with position_tracker := tr }
    else
      let tr := (s1.position_tracker.update_backpack_position
        (-s1.order_quantity)).update_lighter_position s1.order_quantity
      { s1 with position_tracker := tr }
  else
    { s0 with failed_trades := s0.failed_trades + 1 }

/-- `_can_trade` (lines 275-288): no limit when `max_position` is zero;
for `LONG_BACKPACK` checks `bp_pos + quantity <= max_position` (no absolute
value), for the other direction `abs(bp_pos - quantity) <= max_position`. -/
def can_trade (s : BotState) (direction : String) : Bool :=
  if s.max_position = 0 then true
  else if direction = "LONG_BACKPACK" then
    decide (s.position_tracker.backpack_position + s.order_quantity ≤ s.max_position)
  else
    decide (|s.position_tracker.backpack_position - s.order_quantity| ≤ s.max_position)

/-- The trade signal computed each tick (lines 336-341). -/
inductive Signal
  | NONE
  | LONG_BACKPACK
  | SHORT_BACKPACK
deriving DecidableEq, Repr

/-- Signal determination in `trading_loop` (lines 336-341): a spread triggers
only when truthy and strictly above its threshold; the long check runs
first. -/
def determine_signal (long_spread short_spread : Option ℚ)
    (long_threshold short_threshold : ℚ) : Signal :=
  if truthy long_spread && decide (long_threshold < long_spread.getD 0) then
    Signal.LONG_BACKPACK
  else if truthy short_spread && decide (short_threshold < short_spread.getD 0) then
    Signal.SHORT_BACKPACK
  else Signal.NONE

/-- One iteration of the main trading loop body (lines 320-367), with I/O
stripped: if the order books are not ready the tick is skipped; otherwise the
spreads are computed, a signal derived, and `_execute_arbitrage` invoked when
the signal direction also passes `_can_trade`.  Returns the new bot state and
the signal of the tick. -/
def trading_tick (s : BotState) (m : OrderBookManager)
    (bp_result lt_result : Except Exc OrderResult) : BotState × Signal :=
  if !m.is_ready then (s, Signal.NONE)
  else
    let spreads := m.get_spread
    let sig := determine_signal spreads.1 spreads.2 s.long_threshold s.short_threshold
    if sig = Signal.LONG_BACKPACK ∧ can_trade s "LONG_BACKPACK" = true then
      (execute_arbitrage s "LONG_BACKPACK" bp_result lt_result, sig)
    else if sig = Signal.SHORT_BACKPACK ∧ can_trade s "SHORT_BACKPACK" = true then
      (execute_arbitrage s "SHORT_BACKPACK" bp_result lt_result, sig)
    else (s, sig)

/-- One requested execution: a direction together with the two leg
outcomes. -/
structure ExecRequest where
  direction : String
  bp_result : Except Exc OrderResult
  lt_result : Except Exc OrderResult

/-- A sequence of `_execute_arbitrage` invocations. -/
def run_executions (s : BotState) : List ExecRequest → BotState
  | [] => s
  | e :: es => run_executions (execute_arbitrage s e.direction e.bp_result e.lt_result) es

/-! ### query_retry (src/exchanges/base.py lines 13-33)

The decorator is built on tenacity with `stop_after_attempt(max_attempts)`,
`retry_if_exception_type(exception_type)` and a `retry_error_callback` that
returns `default_return` on exhaustion (`reraise=False`).  The wrapped
operation is modelled as a function from the invocation index (0-based) to
that invocation's outcome. -/

/-- Attempt loop of the tenacity retry: run the operation while attempts
remain; a retryable exception consumes an attempt, a non-retryable one
propagates, and exhausting all attempts yields the configured default.
Returns the number of invocations made together with the final outcome. -/
def retry_attempts {α : Type} (op : ℕ → Except Exc α) (retryable : Exc → Bool)
    (default_return : α) : ℕ → ℕ → ℕ × Except Exc α
  | 0, invoked => (invoked, Except.ok default_return)
  | remaining + 1, invoked =>
    match op invoked with
    | Except.ok v => (invoked + 1, Except.ok v)
    | Except.error e =>
      if retryable e then retry_attempts op retryable default_return remaining (invoked + 1)
      else (invoked + 1, Except.error e)

/-- `query_retry(default_return, exception_type, max_attempts, ...)` applied
to an operation. -/
def query_retry_run {α : Type} (op : ℕ → Except Exc α) (retryable : Exc → Bool)
    (max_attempts : ℕ) (default_return : α) : ℕ × Except Exc α :=
  retry_attempts op retryable default_return max_attempts 0

/-- `fetch_bbo_prices` as wrapped at src/exchanges/backpack.py line 274 and
src/exchanges/lighter.py line 309:
`@query_retry(default_return=(Decimal(0), Decimal(0)))`, so the default
`exception_type=(Exception,)` makes every exception retryable and
`max_attempts=5`. -/
def fetch_bbo_prices_wrapped (op : ℕ → Except Exc (ℚ × ℚ)) : ℕ × Except Exc (ℚ × ℚ) :=
  query_retry_run op (fun _ => true) 5 (0, 0)

/-- `get_position` as wrapped at src/exchanges/backpack.py line 347 and
src/exchanges/lighter.py line 374: `@query_retry(default_return=Decimal(0))`. -/
def get_position_wrapped (op : ℕ → Except Exc ℚ) : ℕ × Except Exc ℚ :=
  query_retry_run op (fun _ => true) 5 0

/-! ### BackpackClient.place_market_order (src/exchanges/backpack.py lines 296-345) -/

/-- The response dictionary returned by `account_client.execute_order`:
presence of a `code` key marks a venue rejection; `status`,
`executedQuantity` and `executedQuoteQuantity` describe the resulting
order. -/
structure BPOrderResponse where
  code : Option Int := none
  message : Option String := none
  id : Option String := none
  status : Option String := none
  executedQuantity : ℚ := 0
  executedQuoteQuantity : ℚ := 0
deriving DecidableEq, Repr

/-- Outcome of the `execute_order` API call: a raised exception (caught by
the surrounding `try`), a falsy response (`if not result`), or a response
dictionary. -/
inductive BPApiOutcome
  | raised (e : Exc)
  | empty
  | response (r : BPOrderResponse)
deriving DecidableEq, Repr

/-- `BackpackClient.place_market_order` (lines 296-345): map the side
(case-insensitively) to Bid/Ask, returning an invalid-side failure otherwise;
call `execute_order`; convert a raised exception, an empty response, a
response with a `code` key, or a non-FILLED status into a failure result;
and on FILLED status build the success result with the average fill price. -/
def backpack_place_market_order (quantity : ℚ) (side : String) (api : BPApiOutcome) :
    OrderResult :=
  if pyLower side = "buy" ∨ pyLower side = "sell" then
    match api with
    | .raised e => { success := false, error_message := some e.msg }
    | .empty => { success := false, error_message := some "No response from API" }
    | .response r =>
      if r.code.isSome then
        { success := false, error_message := some (r.message.getD "Unknown error") }
      else if pyUpper (r.status.getD "") = "FILLED" then
        let avg : ℚ := if 0 < r.executedQuantity then
          r.executedQuoteQuantity / r.executedQuantity else 0
        { success := true, order_id := r.id, side := some (pyLower side),
          size := some quantity, price := some avg, avg_price := some avg,
          status := some "FILLED", filled_size := some r.executedQuantity }
      else
        { success := false, order_id := r.id,
          error_message := some ("Order not filled, status: " ++ pyUpper (r.status.getD "")) }
  else
    { success := false, error_message := some ("Invalid side: " ++ side) }

/-! ### LighterClient.place_market_order (src/exchanges/lighter.py lines 319-372) -/

/-- The I/O environment seen by one `LighterClient.place_market_order` call:
the outcome of the signer-client initialization check, the BBO returned by
the retry-wrapped `fetch_bbo_prices` (which never raises), the outcome of
`create_order` (a raised exception, or its returned error value), and the
clock-derived client order index. -/
structure LighterEnv where
  client_check : Except Exc Unit
  bbo : ℚ × ℚ
  create_order : Except Exc (Option String)
  client_order_index : ℕ

/-- `LighterClient.place_market_order` (lines 319-372): initialize the signer
client if needed (a failure there is caught and returned as a failure
result); fetch the BBO; price the aggressive limit order at `ask * 1.002`
for a buy and `bid * 0.998` for a sell, rejecting any other side; submit via
`create_order`, converting a raised exception or a returned error into a
failure result; otherwise return a success result that assumes a full fill
at the limit price. -/
def lighter_place_market_order (quantity : ℚ) (side : String) (env : LighterEnv) :
    OrderResult :=
  match env.client_check with
  | .error e => { success := false, error_message := some e.msg }
  | .ok _ =>
    let best_bid := env.bbo.1
    let best_ask := env.bbo.2
    if pyLower side = "buy" ∨ pyLower side = "sell" then
      let price : ℚ := if pyLower side = "buy" then best_ask * (1002 / 1000)
        else best_bid * (998 / 1000)
      match env.create_order with
      | .error e => { success := false, error_message := some e.msg }
      | .ok (some err) =>
        { success := false, error_message := some ("Order creation error: " ++ err) }
      | .ok none =>
        { success := true, order_id := some (toString env.client_order_index),
          side := some (pyLower side), size := some quantity, price := some price,
          avg_price := some price, status := some "FILLED", filled_size := some quantity }
    else
      { success := false, error_message := some ("Invalid side: " ++ side) }

/-! ### Reconnect backoff (src/exchanges/backpack.py lines 63-92,
src/exchanges/lighter.py lines 99-163)

Both WebSocket managers run the same loop shape: `reconnect_delay` starts at
1 with a cap of 30; a successful connection resets it to 1 before the
listen/message phase; when the iteration ends (connection failure or a
dropped session) the loop sleeps `reconnect_delay` seconds and then doubles
it, capped at 30. -/

/-- What one iteration of the reconnect loop observed: the connection attempt
failed outright, or it succeeded (resetting the delay) and the session later
ended. -/
inductive ConnectEvent
  | fail
  | session
deriving DecidableEq, Repr

/-- One reconnect-loop iteration: on a successful connection the delay is
reset to 1; the iteration then sleeps the current delay and doubles it,
capped at 30.  Returns the recorded sleep and the next delay. -/
def reconnect_iteration (delay : ℕ) (ev : ConnectEvent) : ℕ × ℕ :=
  let d := match ev with
    | ConnectEvent.session => 1
    | ConnectEvent.fail => delay
  (d, min (d * 2) 30)

/-- Sleeps recorded by successive reconnect-loop iterations, starting from a
given delay. -/
def reconnect_trace (delay : ℕ) : List ConnectEvent → List ℕ
  | [] => []
  | ev :: evs =>
    let step := reconnect_iteration delay ev
    step.1 :: reconnect_trace step.2 evs

/-! ### LighterWebSocketManager best levels (src/exchanges/lighter.py
lines 80-97 and 185-199) -/

/-- Maximum of a list of prices (`max(levels, key=price)`), `none` on the
empty list. -/
def maxPrice : List ℚ → Option ℚ
  | [] => none
  | p :: ps => some ((maxPrice ps).elim p (fun m => max p m))

/-- Minimum of a list of prices (`min(levels, key=price)`), `none` on the
empty list. -/
def minPrice : List ℚ → Option ℚ
  | [] => none
  | p :: ps => some ((minPrice ps).elim p (fun m => min p m))

/-- The liquidity filter of `_get_best_levels`: keep a `(price, size)` level
when `size * price >= 10000`. -/
def notional_cutoff (l : ℚ × ℚ) : Bool :=
  decide (10000 ≤ l.2 * l.1)

/-- `_get_best_levels` (lines 80-97): best bid is the highest price among bid
levels passing the notional cutoff, best ask the lowest such ask price;
`None` for a side whose book is empty or whose levels all fail the cutoff. -/
def get_best_levels (bids asks : List (ℚ × ℚ)) : Option ℚ × Option ℚ :=
  let best_bid := if bids.isEmpty then none
    else maxPrice ((bids.filter notional_cutoff).map Prod.fst)
  let best_ask := if asks.isEmpty then none
    else minPrice ((asks.filter notional_cutoff).map Prod.fst)
  (best_bid, best_ask)

/-- Published best-of-book state of `LighterWebSocketManager`. -/
structure LighterWS where
  best_bid : Option ℚ := none
  best_ask : Option ℚ := none
  order_book_ready : Bool := false
deriving DecidableEq, Repr

/-- The `update/order_book` branch of `_handle_message` (lines 185-199) after
the depth update has been applied: recompute the best levels and overwrite
each published side only when the recomputed value is truthy, then flip the
ready flag once both sides are truthy. -/
def lighter_publish_best (st : LighterWS) (bids asks : List (ℚ × ℚ)) : LighterWS :=
  let bl := get_best_levels bids asks
  let st1 := if truthy bl.1 then { st with best_bid := bl.1 } else st
  let st2 := if truthy bl.2 then { st1 with best_ask := bl.2 } else st1
  if !st2.order_book_ready && truthy st2.best_bid && truthy st2.best_ask then
    { st2 with order_book_ready := true }
  else st2

/-! ### Theorems -/

/-- C1: every `_execute_arbitrage` invocation with a valid direction
increments the total-trades counter exactly once; on joint leg success the
successful-trades counter alone is incremented and the position tracker
receives `+quantity` on the buy-side venue and `-quantity` on the sell-side
venue (Backpack buys for `LONG_BACKPACK`, sells for `SHORT_BACKPACK`); on
any other joint outcome the failed-trades counter alone is incremented and
the tracker is untouched. -/
theorem C1_execute_arbitrage_outcome
    (s : BotState) (direction : String) (bp_result lt_result : Except Exc OrderResult)
    (hdir : direction = "LONG_BACKPACK" ∨ direction = "SHORT_BACKPACK") :
    (execute_arbitrage s direction bp_result lt_result).total_trades = s.total_trades + 1 ∧
    ((legSuccess bp_result && legSuccess lt_result) = true →
      (execute_arbitrage s direction bp_result lt_result).successful_trades =
        s.successful_trades + 1 ∧
      (execute_arbitrage s direction bp_result lt_result).failed_trades = s.failed_trades ∧
      (direction = "LONG_BACKPACK" →
        (execute_arbitrage s direction bp_result lt_result).position_tracker.backpack_position =
          s.position_tracker.backpack_position + s.order_quantity ∧
        (execute_arbitrage s direction bp_result lt_result).position_tracker.lighter_position =
          s.position_tracker.lighter_position - s.order_quantity) ∧
      (direction = "SHORT_BACKPACK" →
        (execute_arbitrage s direction bp_result lt_result).position_tracker.backpack_position =
          s.position_tracker.backpack_position - s.order_quantity ∧
        (execute_arbitrage s direction bp_result lt_result).position_tracker.lighter_position =
          s.position_tracker.lighter_position + s.order_quantity)) ∧
    ((legSuccess bp_result && legSuccess lt_result) = false →
      (execute_arbitrage s direction bp_result lt_result).failed_trades = s.failed_trades + 1 ∧
      (execute_arbitrage s direction bp_result lt_result).successful_trades =
        s.successful_trades ∧
      (execute_arbitrage s direction bp_result lt_result).position_tracker =
        s.position_tracker) := by
  rcases hdir with h | h <;> subst h <;>
    cases hbp : legSuccess bp_result <;> cases hlt : legSuccess lt_result <;>
    simp [execute_arbitrage, hbp, hlt, PositionTracker.update_backpack_position,
      PositionTracker.update_lighter_position, sub_eq_add_neg]

/-- A leg outcome that is a successful `OrderResult`. -/
def okLeg : Except Exc OrderResult := Except.ok { success := true }

/-- Concrete bot state used to exercise `_execute_arbitrage`. -/
def c1state : BotState :=
  { order_quantity := 2, total_trades := 10, successful_trades := 4,
    failed_trades := 6, position_tracker := ⟨1, -1⟩ }

/-- C1 witness: a concrete `LONG_BACKPACK` invocation where both legs
succeed. -/
theorem C1_execute_arbitrage_outcome_witness :
    (execute_arbitrage c1state "LONG_BACKPACK" okLeg okLeg).total_trades = 11 ∧
    (execute_arbitrage c1state "LONG_BACKPACK" okLeg okLeg).position_tracker.backpack_position
      = 3 := by
  have h := C1_execute_arbitrage_outcome c1state "LONG_BACKPACK" okLeg okLeg (Or.inl rfl)
  refine ⟨h.1, ?_⟩
  have h2 := ((h.2.1 (by decide)).2.2.1 rfl).1
  rw [h2]
  norm_num [c1state]

/-- The bot state refuting claim C2: a short cached Backpack position of -1
with `max_position = 0.1` and `order_quantity = 0.05`. -/
def c2state : BotState :=
  { order_quantity := 1/20, max_position := 1/10,
    position_tracker := { backpack_position := -1, lighter_position := 1 } }

/-- C2 counterexample: with `max_position = 0.1 > 0`, a cached Backpack
position of -1 and `order_quantity = 0.05`, `_can_trade('LONG_BACKPACK')`
returns `True` although the absolute post-trade Backpack position would be
`0.95 > 0.1` — the LONG branch of `_can_trade` compares the signed post-trade
position, not its absolute value, so the claim's biconditional fails here. -/
theorem C2_can_trade_claim_counterexample :
    0 < c2state.max_position ∧
    can_trade c2state "LONG_BACKPACK" = true ∧
    ¬ (|c2state.position_tracker.backpack_position + c2state.order_quantity| ≤
        c2state.max_position) := by
  refine ⟨by norm_num [c2state], by norm_num [can_trade, c2state], ?_⟩
  simp only [c2state]
  norm_num
  rw [abs_of_nonneg (by norm_num)]
  norm_num

/-- Boundary state of the claim: `max_position = 0.1`, cached Backpack
position `0.05`, trade size `0.05`. -/
def c2boundary_ok : BotState :=
  { order_quantity := 1/20, max_position := 1/10,
    position_tracker := { backpack_position := 1/20 } }

/-- Same boundary state with trade size `0.06`. -/
def c2boundary_reject : BotState :=
  { order_quantity := 6/100, max_position := 1/10,
    position_tracker := { backpack_position := 1/20 } }

/-- C2 amended: `_can_trade` is unconstrained when `max_position` is zero;
with a positive `max_position`, a `LONG_BACKPACK` trade is allowed iff the
signed post-trade Backpack position `bp_pos + quantity` is at most
`max_position` (no absolute value), and a `SHORT_BACKPACK` trade iff the
absolute post-trade position `|bp_pos - quantity|` is at most `max_position`,
both boundaries inclusive; in particular with `max_position = 0.1` and
Backpack position `0.05`, a `LONG_BACKPACK` trade of size `0.05` is allowed
and size `0.06` is rejected. -/
theorem C2_can_trade_amended (s : BotState) (direction : String) :
    (s.max_position = 0 → can_trade s direction = true) ∧
    (0 < s.max_position →
      (can_trade s "LONG_BACKPACK" = true ↔
        s.position_tracker.backpack_position + s.order_quantity ≤ s.max_position) ∧
      (can_trade s "SHORT_BACKPACK" = true ↔
        |s.position_tracker.backpack_position - s.order_quantity| ≤ s.max_position)) ∧
    can_trade c2boundary_ok "LONG_BACKPACK" = true ∧
    can_trade c2boundary_reject "LONG_BACKPACK" = false := by
  refine ⟨?_, ?_, by norm_num [can_trade, c2boundary_ok],
    by norm_num [can_trade, c2boundary_reject]⟩
  · intro h
    simp [can_trade, h]
  · intro h
    have hne : s.max_position ≠ 0 := ne_of_gt h
    constructor <;> simp [can_trade, hne]

/-- C2 amended witness: the zero-limit case and the inclusive boundary
case, each obtained from the amended theorem at a concrete state. -/
theorem C2_can_trade_amended_witness :
    can_trade { order_quantity := 1 } "SHORT_BACKPACK" = true ∧
    can_trade c2boundary_ok "LONG_BACKPACK" = true :=
  ⟨(C2_can_trade_amended { order_quantity := 1 } "SHORT_BACKPACK").1 rfl,
   ((C2_can_trade_amended c2boundary_ok "LONG_BACKPACK").2.1 (by norm_num [c2boundary_ok])).1.mpr
     (by norm_num [c2boundary_ok])⟩

/-- Net position is preserved by every `_execute_arbitrage` invocation: the
tracker is either untouched or receives `+quantity` on one venue and
`-quantity` on the other. -/
theorem execute_arbitrage_net_eq (s : BotState) (d : String)
    (bp lt : Except Exc OrderResult) :
    (execute_arbitrage s d bp lt).position_tracker.get_net_position =
      s.position_tracker.get_net_position := by
  by_cases hd : d = "LONG_BACKPACK" <;>
    cases hbp : legSuccess bp <;> cases hlt : legSuccess lt <;>
    simp [execute_arbitrage, hbp, hlt, hd, PositionTracker.get_net_position,
      PositionTracker.update_backpack_position, PositionTracker.update_lighter_position] <;>
    ring

/-- C7: a jointly successful `_execute_arbitrage` invocation leaves the net
position (`get_net_position`, the sum of the two cached venue positions)
unchanged, and hence any sequence of jointly successful executions — in any
directions and hence in particular alternating directions with equal
quantity — returns the net position to exactly its pre-sequence value. -/
theorem C7_net_position_invariant :
    (∀ (s : BotState) (d : String) (bp lt : Except Exc OrderResult),
      (legSuccess bp && legSuccess lt) = true →
      (execute_arbitrage s d bp lt).position_tracker.get_net_position =
        s.position_tracker.get_net_position) ∧
    (∀ (s : BotState) (execs : List ExecRequest),
      (∀ e ∈ execs, (legSuccess e.bp_result && legSuccess e.lt_result) = true) →
      (run_executions s execs).position_tracker.get_net_position =
        s.position_tracker.get_net_position) := by
  constructor
  · intro s d bp lt _
    exact execute_arbitrage_net_eq s d bp lt
  · intro s execs
    induction execs generalizing s with
    | nil => intro _; rfl
    | cons e es ih =>
      intro _
      calc (run_executions (execute_arbitrage s e.direction e.bp_result e.lt_result)
              es).position_tracker.get_net_position
          = (execute_arbitrage s e.direction e.bp_result
              e.lt_result).position_tracker.get_net_position := ih _ (by intro x hx; simp_all)
        _ = s.position_tracker.get_net_position := execute_arbitrage_net_eq _ _ _ _

/-- Concrete bot state used for the net-position witness. -/
def c7state : BotState := { order_quantity := 3, position_tracker := ⟨2, -2⟩ }

/-- C7 witness: two jointly successful executions in alternating directions
with equal quantity leave the net position of a concrete state unchanged. -/
theorem C7_net_position_invariant_witness :
    (run_executions c7state
      [⟨"LONG_BACKPACK", okLeg, okLeg⟩, ⟨"SHORT_BACKPACK", okLeg, okLeg⟩]
      ).position_tracker.get_net_position = 0 ∧
    (execute_arbitrage c7state "LONG_BACKPACK" okLeg
      okLeg).position_tracker.get_net_position = 0 := by
  constructor
  · rw [C7_net_position_invariant.2 _ _ (by decide)]
    norm_num [c7state, PositionTracker.get_net_position]
  · rw [C7_net_position_invariant.1 _ _ _ _ (by decide)]
    norm_num [c7state, PositionTracker.get_net_position]

/-- C8: when either order book's ready flag is still false, `get_spread`
returns `(None, None)` rather than zeros, and the trading-loop tick skips:
it produces no signal and leaves the bot state (counters and positions)
untouched. -/
theorem C8_not_ready_skips_tick (s : BotState) (m : OrderBookManager)
    (bp lt : Except Exc OrderResult)
    (h : m.backpack_ready = false ∨ m.lighter_ready = false) :
    m.get_spread = (none, none) ∧ trading_tick s m bp lt = (s, Signal.NONE) := by
  have hready : m.is_ready = false := by
    rcases h with h | h <;> simp [OrderBookManager.is_ready, h]
  constructor
  · simp [OrderBookManager.get_spread, hready]
  · simp [trading_tick, hready]

/-- C8 witness: the freshly initialized manager (both flags false) trips the
skip path. -/
theorem C8_not_ready_skips_tick_witness :
    (OrderBookManager.get_spread {}) = (none, none) ∧
    trading_tick { order_quantity := 1 } {} (Except.ok { success := true })
      (Except.ok { success := true }) = ({ order_quantity := 1 }, Signal.NONE) :=
  C8_not_ready_skips_tick { order_quantity := 1 } {} (Except.ok { success := true })
    (Except.ok { success := true }) (Or.inl rfl)

/-- C4: `place_market_order` on each exchange client is a total function
into `OrderResult` (every raised exception in the body is caught and
converted, so the embedding needs no error case): the Backpack result
succeeds exactly when the side is buy/sell case-insensitively, the venue
returned a response without a rejection `code` and the order status
upper-cases to FILLED; the Lighter result succeeds exactly when client
initialization passed, the side is valid and `create_order` returned no
error; and on both venues every success result carries status FILLED, so
the result is a failure whenever the side is invalid, the venue rejected
the order, or the order did not reach filled status. -/
theorem C4_place_market_order_total (q : ℚ) (side : String) (api : BPApiOutcome)
    (env : LighterEnv) :
    ((backpack_place_market_order q side api).success = true ↔
      ((pyLower side = "buy" ∨ pyLower side = "sell") ∧
        ∃ r, api = BPApiOutcome.response r ∧ r.code = none ∧
          pyUpper (r.status.getD "") = "FILLED")) ∧
    ((backpack_place_market_order q side api).success = true →
      (backpack_place_market_order q side api).status = some "FILLED") ∧
    ((lighter_place_market_order q side env).success = true ↔
      (env.client_check = Except.ok () ∧ (pyLower side = "buy" ∨ pyLower side = "sell") ∧
        env.create_order = Except.ok none)) ∧
    ((lighter_place_market_order q side env).success = true →
      (lighter_place_market_order q side env).status = some "FILLED") := by
  refine ⟨?_, ?_, ?_, ?_⟩
  · by_cases hs : pyLower side = "buy" ∨ pyLower side = "sell"
    · cases api with
      | raised e => simp [backpack_place_market_order, hs]
      | empty => simp [backpack_place_market_order, hs]
      | response r =>
        by_cases hc : r.code.isSome
        · simp_all [backpack_place_market_order, hs, hc, Option.isSome_iff_ne_none]
        · by_cases hf : pyUpper (r.status.getD "") = "FILLED" <;>
            simp_all [backpack_place_market_order, Option.not_isSome_iff_eq_none]
    · simp [backpack_place_market_order, hs]
  · by_cases hs : pyLower side = "buy" ∨ pyLower side = "sell"
    · cases api with
      | raised e => simp [backpack_place_market_order, hs]
      | empty => simp [backpack_place_market_order, hs]
      | response r =>
        by_cases hc : r.code.isSome
        · simp [backpack_place_market_order, hs, hc]
        · by_cases hf : pyUpper (r.status.getD "") = "FILLED" <;>
            simp [backpack_place_market_order, hs, hc, hf]
    · simp [backpack_place_market_order, hs]
  · cases hcc : env.client_check with
    | error e => simp [lighter_place_market_order, hcc]
    | ok u =>
      by_cases hs : pyLower side = "buy" ∨ pyLower side = "sell"
      · cases hco : env.create_order with
        | error e => simp [lighter_place_market_order, hcc, hco, hs]
        | ok w =>
          cases w with
          | none => simp [lighter_place_market_order, hcc, hco, hs]
          | some err => simp [lighter_place_market_order, hcc, hco, hs]
      · simp [lighter_place_market_order, hcc, hs]
  · cases hcc : env.client_check with
    | error e => simp [lighter_place_market_order, hcc]
    | ok u =>
      by_cases hs : pyLower side = "buy" ∨ pyLower side = "sell"
      · cases hco : env.create_order with
        | error e => simp [lighter_place_market_order, hcc, hco, hs]
        | ok w =>
          cases w with
          | none => simp [lighter_place_market_order, hcc, hco, hs]
          | some err => simp [lighter_place_market_order, hcc, hco, hs]
      · simp [lighter_place_market_order, hcc, hs]

/-- A Backpack venue response reporting a filled order. -/
def c4response : BPOrderResponse :=
  { id := some "oid-1", status := some "Filled", executedQuantity := 2,
    executedQuoteQuantity := 200 }

/-- A Lighter environment in which the order placement fully succeeds. -/
def c4env : LighterEnv :=
  { client_check := Except.ok (), bbo := (100, 101), create_order := Except.ok none,
    client_order_index := 7 }

/-- C4 witness: a filled Backpack order and a successful Lighter order, with
the success-implies-FILLED conjuncts discharged at these inputs. -/
theorem C4_place_market_order_total_witness :
    (backpack_place_market_order 1 "BUY" (BPApiOutcome.response c4response)).success = true ∧
    (backpack_place_market_order 1 "BUY" (BPApiOutcome.response c4response)).status =
      some "FILLED" ∧
    (lighter_place_market_order 1 "sell" c4env).status = some "FILLED" := by
  have hbp : (backpack_place_market_order 1 "BUY" (BPApiOutcome.response c4response)).success
      = true :=
    (C4_place_market_order_total 1 "BUY" (BPApiOutcome.response c4response) c4env).1.mpr
      ⟨Or.inl rfl, c4response, rfl, rfl, rfl⟩
  have hlt : (lighter_place_market_order 1 "sell" c4env).success = true :=
    (C4_place_market_order_total 1 "sell" (BPApiOutcome.response c4response) c4env).2.2.1.mpr
      ⟨rfl, Or.inr rfl, rfl⟩
  exact ⟨hbp,
    (C4_place_market_order_total 1 "BUY" (BPApiOutcome.response c4response) c4env).2.1 hbp,
    (C4_place_market_order_total 1 "sell" (BPApiOutcome.response c4response) c4env).2.2.2 hlt⟩

/-- Every `some` produced by `maxPrice` is a member of the list and an upper
bound of it. -/
theorem maxPrice_spec (l : List ℚ) (p : ℚ) (h : maxPrice l = some p) :
    p ∈ l ∧ ∀ x ∈ l, x ≤ p := by
  induction l generalizing p with
  | nil => simp [maxPrice] at h
  | cons a as ih =>
    rw [maxPrice] at h
    cases hm : maxPrice as with
    | none =>
      rw [hm] at h
      simp only [Option.elim] at h
      cases as with
      | nil =>
        simp only [Option.some_inj] at h
        subst h
        simp
      | cons b bs => simp [maxPrice] at hm
    | some m =>
      rw [hm] at h
      simp only [Option.elim, Option.some_inj] at h
      obtain ⟨hmem, hub⟩ := ih m hm
      subst h
      constructor
      · rcases le_total a m with hle | hle
        · exact List.mem_cons_of_mem a (by rwa [max_eq_right hle])
        · rw [max_eq_left hle]; exact List.mem_cons_self a as
      · intro x hx
        rcases List.mem_cons.mp hx with hx | hx
        · subst hx; exact le_max_left _ _
        · exact le_trans (hub x hx) (le_max_right a m)

/-- Every `some` produced by `minPrice` is a member of the list and a lower
bound of it. -/
theorem minPrice_spec (l : List ℚ) (p : ℚ) (h : minPrice l = some p) :
    p ∈ l ∧ ∀ x ∈ l, p ≤ x := by
  induction l generalizing p with
  | nil => simp [minPrice] at h
  | cons a as ih =>
    rw [minPrice] at h
    cases hm : minPrice as with
    | none =>
      rw [hm] at h
      simp only [Option.elim] at h
      cases as with
      | nil =>
        simp only [Option.some_inj] at h
        subst h
        simp
      | cons b bs => simp [minPrice] at hm
    | some m =>
      rw [hm] at h
      simp only [Option.elim, Option.some_inj] at h
      obtain ⟨hmem, hlb⟩ := ih m hm
      subst h
      constructor
      · rcases le_total a m with hle | hle
        · rw [min_eq_left hle]; exact List.mem_cons_self a as
        · exact List.mem_cons_of_mem a (by rwa [min_eq_right hle])
      · intro x hx
        rcases List.mem_cons.mp hx with hx | hx
        · subst hx; exact min_le_left _ _
        · exact le_trans (min_le_right a m) (hlb x hx)

/-- C9: the Lighter best bid (resp. ask) is computed only over price levels
whose notional `size * price` reaches 10000, taking the highest (resp.
lowest) such price, and when no level on a side passes the cutoff the
previously published best value of that side is retained unchanged by the
order-book update handler rather than being cleared. -/
theorem C9_lighter_best_levels (st : LighterWS) (bids asks : List (ℚ × ℚ)) :
    ((∀ l ∈ bids, l.2 * l.1 < 10000) →
      (lighter_publish_best st bids asks).best_bid = st.best_bid) ∧
    ((∀ l ∈ asks, l.2 * l.1 < 10000) →
      (lighter_publish_best st bids asks).best_ask = st.best_ask) ∧
    (∀ p, (get_best_levels bids asks).1 = some p →
      (∃ sz, (p, sz) ∈ bids ∧ 10000 ≤ sz * p) ∧
      (∀ l ∈ bids, 10000 ≤ l.2 * l.1 → l.1 ≤ p)) ∧
    (∀ p, (get_best_levels bids asks).2 = some p →
      (∃ sz, (p, sz) ∈ asks ∧ 10000 ≤ sz * p) ∧
      (∀ l ∈ asks, 10000 ≤ l.2 * l.1 → p ≤ l.1)) := by
  refine ⟨?_, ?_, ?_, ?_⟩
  · intro h
    have hfil : bids.filter notional_cutoff = [] := by
      rw [List.filter_eq_nil_iff]
      intro l hl
      simp [notional_cutoff, not_le, h l hl]
    have hb : (get_best_levels bids asks).1 = none := by
      by_cases he : bids.isEmpty <;> simp [get_best_levels, he, hfil, maxPrice]
    have ht : truthy (get_best_levels bids asks).1 = false := by rw [hb]; rfl
    simp only [lighter_publish_best, ht, Bool.false_eq_true, if_false]
    split_ifs <;> rfl
  · intro h
    have hfil : asks.filter notional_cutoff = [] := by
      rw [List.filter_eq_nil_iff]
      intro l hl
      simp [notional_cutoff, not_le, h l hl]
    have hb : (get_best_levels bids asks).2 = none := by
      by_cases he : asks.isEmpty <;> simp [get_best_levels, he, hfil, minPrice]
    have ht : truthy (get_best_levels bids asks).2 = false := by rw [hb]; rfl
    simp only [lighter_publish_best, ht, Bool.false_eq_true, if_false]
    split_ifs <;> rfl
  · intro p hp
    by_cases he : bids.isEmpty
    · simp [get_best_levels, he] at hp
    · rw [get_best_levels] at hp
      simp only [he, if_false, Bool.false_eq_true, ite_false] at hp
      obtain ⟨hmem, hub⟩ := maxPrice_spec _ _ hp
      obtain ⟨l, hlf, hlp⟩ := List.mem_map.mp hmem
      obtain ⟨hlb, hcut⟩ := List.mem_filter.mp hlf
      constructor
      · refine ⟨l.2, ?_, ?_⟩
        · rwa [← hlp, Prod.mk.eta]
        · rw [← hlp]
          exact of_decide_eq_true hcut
      · intro l hl hc
        exact hub l.1 (List.mem_map.mpr ⟨l, List.mem_filter.mpr
          ⟨hl, decide_eq_true hc⟩, rfl⟩)
  · intro p hp
    by_cases he : asks.isEmpty
    · simp [get_best_levels, he] at hp
    · rw [get_best_levels] at hp
      simp only [he, if_false, Bool.false_eq_true, ite_false] at hp
      obtain ⟨hmem, hlb2⟩ := minPrice_spec _ _ hp
      obtain ⟨l, hlf, hlp⟩ := List.mem_map.mp hmem
      obtain ⟨hla, hcut⟩ := List.mem_filter.mp hlf
      constructor
      · refine ⟨l.2, ?_, ?_⟩
        · rwa [← hlp, Prod.mk.eta]
        · rw [← hlp]
          exact of_decide_eq_true hcut
      · intro l hl hc
        exact hlb2 l.1 (List.mem_map.mpr ⟨l, List.mem_filter.mpr
          ⟨hl, decide_eq_true hc⟩, rfl⟩)

/-- C9 witness: a book whose single bid level fails the notional cutoff
keeps the previously published best bid, and the computed best bid of a
two-level book is a maximal cutoff-passing level. -/
theorem C9_lighter_best_levels_witness :
    (lighter_publish_best ⟨some 99, some 101, true⟩ [(99, 1)] [(100, 1)]).best_bid =
      some 99 ∧
    (∃ sz, ((100 : ℚ), sz) ∈ [((100 : ℚ), (200 : ℚ)), (101, 5)] ∧ 10000 ≤ sz * 100) :=
  ⟨(C9_lighter_best_levels ⟨some 99, some 101, true⟩ [(99, 1)] [(100, 1)]).1
     (by intro l hl; simp at hl; subst hl; norm_num),
   ((C9_lighter_best_levels ⟨none, none, false⟩ [((100 : ℚ), (200 : ℚ)), (101, 5)] []).2.2.1
     100 (by norm_num [get_best_levels, maxPrice, notional_cutoff, List.filter])).1⟩

/-- Invariant of the order-book manager maintained by
`_update_order_books`: a venue's ready flag is only on once both of its
quotes are truthy. -/
def ReadyTruthy (m : OrderBookManager) : Prop :=
  (m.backpack_ready = true →
    truthy m.backpack_best_bid = true ∧ truthy m.backpack_best_ask = true) ∧
  (m.lighter_ready = true →
    truthy m.lighter_best_bid = true ∧ truthy m.lighter_best_ask = true)

/-- A truthy optional quote stays truthy after `getD 0` re-wrapping. -/
theorem truthy_some_getD (o : Option ℚ) (h : truthy o = true) :
    truthy (some (o.getD 0)) = true := by
  cases o <;> simp_all [truthy]

/-- One `_update_order_books` tick preserves the ready-implies-truthy
invariant. -/
theorem readyTruthy_update (m : OrderBookManager) (v : WsView) (h : ReadyTruthy m) :
    ReadyTruthy (update_order_books m v) := by
  obtain ⟨hbp, hlt⟩ := h
  unfold update_order_books
  by_cases h1 : (truthy v.bp_bid && truthy v.bp_ask) = true <;>
    by_cases h2 : (truthy v.lt_bid && truthy v.lt_ask) = true <;>
    simp only [h1, h2, if_true, if_false, Bool.false_eq_true, if_neg, ite_true, ite_false] <;>
    simp only [Bool.and_eq_true] at h1 h2 <;>
    constructor <;>
    intro hr <;>
    simp_all [ReadyTruthy, OrderBookManager.update_backpack_bbo,
      OrderBookManager.update_lighter_bbo, truthy_some_getD]

/-- The invariant holds for every manager state reachable from the initial
state by `_update_order_books` ticks. -/
theorem readyTruthy_apply_updates (vs : List WsView) :
    ∀ (m : OrderBookManager), ReadyTruthy m → ReadyTruthy (apply_updates m vs) := by
  induction vs with
  | nil => intro m h; exact h
  | cons v vs ih => intro m h; exact ih _ (readyTruthy_update m v h)

/-- Under the invariant, a ready manager computes both spreads. -/
theorem get_spread_of_readyTruthy (m : OrderBookManager) (hInv : ReadyTruthy m)
    (h : m.is_ready = true) :
    m.get_spread =
      (some (m.lighter_best_bid.getD 0 - m.backpack_best_ask.getD 0),
       some (m.backpack_best_bid.getD 0 - m.lighter_best_ask.getD 0)) := by
  rw [OrderBookManager.is_ready, Bool.and_eq_true] at h
  obtain ⟨h1, h2⟩ := hInv.1 h.1
  obtain ⟨h3, h4⟩ := hInv.2 h.2
  simp [OrderBookManager.get_spread, OrderBookManager.is_ready, h.1, h.2, h1, h2, h3, h4]

/-- The manager state holding the quotes of the claim's concrete example:
Backpack (bid 100, ask 101) and Lighter (bid 106, ask 107). -/
def c3manager : OrderBookManager :=
  (OrderBookManager.update_backpack_bbo {} 100 101).update_lighter_bbo 106 107

/-- C3: for every manager state reached from the initial state by
`_update_order_books` ticks, once both books are ready `get_spread` returns
exactly `(lighter_bid - backpack_ask, backpack_bid - lighter_ask)`; on the
concrete example Backpack=(100, 101), Lighter=(106, 107) this is `(5, -7)`;
and the trading loop's signal is produced only on a strict threshold
crossing — a long spread exactly equal to the threshold 5 yields `NONE`,
while 5.01 yields `LONG_BACKPACK`. -/
theorem C3_spread_formula_and_strict_threshold :
    (∀ (vs : List WsView),
      (apply_updates {} vs).is_ready = true →
      (apply_updates {} vs).get_spread =
        (some ((apply_updates {} vs).lighter_best_bid.getD 0 -
               (apply_updates {} vs).backpack_best_ask.getD 0),
         some ((apply_updates {} vs).backpack_best_bid.getD 0 -
               (apply_updates {} vs).lighter_best_ask.getD 0))) ∧
    c3manager.get_spread = (some 5, some (-7)) ∧
    (∀ (ls ss : Option ℚ) (lth sth : ℚ),
      (determine_signal ls ss lth sth = Signal.LONG_BACKPACK → lth < ls.getD 0) ∧
      (determine_signal ls ss lth sth = Signal.SHORT_BACKPACK → sth < ss.getD 0)) ∧
    determine_signal (some 5) (some (-7)) 5 5 = Signal.NONE ∧
    determine_signal (some (501/100)) (some (-7)) 5 5 = Signal.LONG_BACKPACK := by
  refine ⟨?_, ?_, ?_, ?_, ?_⟩
  · intro vs h
    refine get_spread_of_readyTruthy _ ?_ h
    refine readyTruthy_apply_updates vs {} ?_
    constructor <;> intro hr <;> simp at hr
  · norm_num [c3manager, OrderBookManager.get_spread, OrderBookManager.is_ready,
      OrderBookManager.update_backpack_bbo, OrderBookManager.update_lighter_bbo, truthy]
  · intro ls ss lth sth
    constructor <;> intro h <;> unfold determine_signal at h <;> split_ifs at h with h1 h2 <;>
      simp_all
  · norm_num [determine_signal, truthy]
  · norm_num [determine_signal, truthy]

/-- C3 witness: the reachable-state conjunct applied to the single tick
carrying the example quotes, and the strict-threshold conjunct applied at
the triggering spread 5.01. -/
theorem C3_spread_formula_witness :
    (apply_updates {} [⟨some 100, some 101, some 106, some 107⟩]).get_spread =
      (some ((apply_updates {} [⟨some 100, some 101, some 106, some 107⟩]
          ).lighter_best_bid.getD 0 -
        (apply_updates {} [⟨some 100, some 101, some 106, some 107⟩]
          ).backpack_best_ask.getD 0),
       some ((apply_updates {} [⟨some 100, some 101, some 106, some 107⟩]
          ).backpack_best_bid.getD 0 -
        (apply_updates {} [⟨some 100, some 101, some 106, some 107⟩]
          ).lighter_best_ask.getD 0)) ∧
    (5 : ℚ) < (some ((501 : ℚ)/100)).getD 0 :=
  ⟨C3_spread_formula_and_strict_threshold.1 [⟨some 100, some 101, some 106, some 107⟩]
     (by norm_num [apply_updates, update_order_books, truthy,
        OrderBookManager.update_backpack_bbo, OrderBookManager.update_lighter_bbo,
        OrderBookManager.is_ready]),
   (C3_spread_formula_and_strict_threshold.2.2.1 (some (501/100)) (some (-7)) 5 5).1
     (by norm_num [determine_signal, truthy])⟩

/-- C5: an operation wrapped by `query_retry` with `max_attempts=5` whose
every invocation raises (every exception is retryable, since the decorator
keeps its default `exception_type=(Exception,)`) is invoked exactly 5 times
and the wrapper returns the configured default without raising — `(0, 0)`
for `fetch_bbo_prices` and `0` for `get_position`, on both exchanges. -/
theorem C5_query_retry_exhaustion
    (op1 : ℕ → Except Exc (ℚ × ℚ)) (op2 : ℕ → Except Exc ℚ)
    (h1 : ∀ k, k < 5 → ∃ e, op1 k = Except.error e)
    (h2 : ∀ k, k < 5 → ∃ e, op2 k = Except.error e) :
    fetch_bbo_prices_wrapped op1 = (5, Except.ok (0, 0)) ∧
    get_position_wrapped op2 = (5, Except.ok 0) := by
  constructor
  · obtain ⟨e0, he0⟩ := h1 0 (by norm_num)
    obtain ⟨e1, he1⟩ := h1 1 (by norm_num)
    obtain ⟨e2, he2⟩ := h1 2 (by norm_num)
    obtain ⟨e3, he3⟩ := h1 3 (by norm_num)
    obtain ⟨e4, he4⟩ := h1 4 (by norm_num)
    simp [fetch_bbo_prices_wrapped, query_retry_run, retry_attempts,
      he0, he1, he2, he3, he4]
  · obtain ⟨e0, he0⟩ := h2 0 (by norm_num)
    obtain ⟨e1, he1⟩ := h2 1 (by norm_num)
    obtain ⟨e2, he2⟩ := h2 2 (by norm_num)
    obtain ⟨e3, he3⟩ := h2 3 (by norm_num)
    obtain ⟨e4, he4⟩ := h2 4 (by norm_num)
    simp [get_position_wrapped, query_retry_run, retry_attempts,
      he0, he1, he2, he3, he4]

/-- C5 witness: both wrapped queries on an operation that always raises. -/
theorem C5_query_retry_exhaustion_witness :
    fetch_bbo_prices_wrapped (fun _ => Except.error ⟨"timeout"⟩) = (5, Except.ok (0, 0)) ∧
    get_position_wrapped (fun _ => Except.error ⟨"timeout"⟩) = (5, Except.ok 0) :=
  C5_query_retry_exhaustion (fun _ => Except.error ⟨"timeout"⟩)
    (fun _ => Except.error ⟨"timeout"⟩)
    (fun _ _ => ⟨⟨"timeout"⟩, rfl⟩) (fun _ _ => ⟨⟨"timeout"⟩, rfl⟩)

/-- Doubling a capped power of two and re-capping equals the capped next
power of two. -/
theorem min_pow_doubling (j : ℕ) : min (min (2 ^ j) 30 * 2) 30 = min (2 ^ (j + 1)) 30 := by
  rcases le_or_lt (2 ^ j) 30 with h | h
  · rw [min_eq_left h, pow_succ]
  · have h1 : (30 : ℕ) ≤ 2 ^ (j + 1) :=
      le_trans (le_of_lt h) (Nat.pow_le_pow_right (by norm_num) (Nat.le_succ j))
    rw [min_eq_right (le_of_lt h), min_eq_right h1]
    norm_num

/-- Sleeps of a run of consecutive connection failures starting from a
capped-power-of-two delay. -/
theorem reconnect_trace_fail (n : ℕ) :
    ∀ j, reconnect_trace (min (2 ^ j) 30) (List.replicate n ConnectEvent.fail) =
      (List.range n).map (fun k => min (2 ^ (j + k)) 30) := by
  induction n with
  | zero => intro j; simp [reconnect_trace]
  | succ n ih =>
    intro j
    rw [List.replicate_succ]
    simp only [reconnect_trace, reconnect_iteration]
    rw [min_pow_doubling j, ih (j + 1), List.range_succ_eq_map]
    simp only [List.map_cons, List.map_map, Nat.add_zero]
    congr 1
    apply List.map_congr_left
    intro k _
    have : j + 1 + k = j + (k + 1) := by omega
    simp [Function.comp, this]

/-- C6: starting from the loop's initial delay of 1, the sleeps recorded
after n consecutive connection failures are `min(2^k, 30)` for `k < n` —
so three consecutive failures record `1, 2, 4` and the sixth records 30,
not 32 — and an iteration whose connection succeeded resets the delay to 1
(sleeping 1 when its session later ends, doubling to 2 afterwards),
whatever the delay had grown to. -/
theorem C6_reconnect_backoff :
    (∀ n, reconnect_trace 1 (List.replicate n ConnectEvent.fail) =
      (List.range n).map (fun k => min (2 ^ k) 30)) ∧
    reconnect_trace 1 (List.replicate 3 ConnectEvent.fail) = [1, 2, 4] ∧
    reconnect_trace 1 (List.replicate 6 ConnectEvent.fail) = [1, 2, 4, 8, 16, 30] ∧
    (∀ d, reconnect_iteration d ConnectEvent.session = (1, 2)) := by
  refine ⟨?_, by decide, by decide, fun d => rfl⟩
  intro n
  have h := reconnect_trace_fail n 0
  simpa using h

/-- C10: for every combination of outcomes of the two `get_position` fetches,
`refresh_positions` returns `True`, a venue whose fetch raised keeps its
previously cached position, and a venue whose fetch returned a value has its
cache overwritten with that value. -/
theorem C10_refresh_positions (t : PositionTracker) (bp lt : Except Exc ℚ) :
    (t.refresh_positions bp lt).2 = true ∧
    (∀ e, bp = Except.error e →
      (t.refresh_positions bp lt).1.backpack_position = t.backpack_position) ∧
    (∀ v, bp = Except.ok v → (t.refresh_positions bp lt).1.backpack_position = v) ∧
    (∀ e, lt = Except.error e →
      (t.refresh_positions bp lt).1.lighter_position = t.lighter_position) ∧
    (∀ v, lt = Except.ok v → (t.refresh_positions bp lt).1.lighter_position = v) := by
  cases bp <;> cases lt <;> simp [PositionTracker.refresh_positions]

/-- C10 witness: Backpack fetch raises while the Lighter fetch returns 7; the
Backpack cache is kept, the Lighter cache overwritten, and `True` returned. -/
theorem C10_refresh_positions_witness :
    (PositionTracker.refresh_positions ⟨3, 4⟩ (Except.error ⟨"boom"⟩)
      (Except.ok 7)).1.backpack_position = 3 ∧
    (PositionTracker.refresh_positions ⟨3, 4⟩ (Except.error ⟨"boom"⟩)
      (Except.ok 7)).1.lighter_position = 7 ∧
    (PositionTracker.refresh_positions ⟨3, 4⟩ (Except.error ⟨"boom"⟩)
      (Except.ok 7)).2 = true :=
  ⟨(C10_refresh_positions _ _ _).2.1 _ rfl,
   (C10_refresh_positions _ _ _).2.2.2.2 _ rfl,
   (C10_refresh_positions _ _ _).1⟩

end Arb
